import Mathlib

/-!
Shallow embedding of `src/main.py` from the tdata2session_converter
repository: a one-shot batch job that converts a TDesktop `tdata`
directory into a Telethon `.session` file.

The program under `src/` processes a single account directory per
invocation: `main()` parses one positional argument, derives
`tdata_folder = <dir>/tdata` and `phone_number = basename(<dir>)`,
ensures a `output` directory under the working directory, skips the job
when `<output>/<phone>.session` already exists, loads the TDesktop
client (with a legacy fallback), converts via the external `opentele`
collaborator, connects, fetches the own identity, double-checks the
output file exists, and finally disconnects on success.  The `__main__`
block wraps `asyncio.run(main())` in a catch-all handler that only logs.

External collaborators (opentele, telethon, the filesystem) are modelled
by an `Env` record supplying the outcome of each external call, and a
finite association-list filesystem.  Python exceptions are modelled by
`PyErr`; `AssertionError` is kept distinct because one handler in
`load_tdesktop_client` catches only that class.
-/

set_option autoImplicit false

namespace Tdata2Session

/-- A Python exception.  `assertionError` models `AssertionError` (the
inner handler of `load_tdesktop_client` catches exactly this class);
`otherError` models every other `Exception` subclass. -/
inductive PyErr where
  | assertionError (msg : String)
  | otherError (msg : String)
deriving DecidableEq

deriving instance DecidableEq for Except

/-- The loaded TDesktop client as the core observes it: `main.py` only
consults `isLoaded()` and `len(accounts)`. -/
structure TDesk where
  isLoaded : Bool
  accounts : Nat
deriving DecidableEq

/-- The Telethon client handle returned by `ToTelethon`.  The core never
reads its fields; `authorized` records whether the converted session is
actually authorized, which drives the modelled behaviour of `get_me`. -/
structure Client where
  authorized : Bool
deriving DecidableEq

/-- The result of `client.get_me()`: `main.py` reads `first_name` and `id`. -/
structure Me where
  firstName : String
  userId : Nat
deriving DecidableEq

/-- Outcomes of the external calls made by one run.  Each field gives the
result the corresponding collaborator call would produce if performed. -/
structure Env where
  standardLoad : Except PyErr TDesk
  legacyLoad : Except PyErr TDesk
  toTelethonResult : Except PyErr Client
  toTelethonWrites : Bool
  sessionContents : String
  connectResult : Except PyErr Unit
  getMeResult : Except PyErr Me
  disconnectResult : Except PyErr Unit

/-- A filesystem entry: a directory or a file with contents. -/
inductive Entry where
  | dir
  | file (contents : String)
deriving DecidableEq

/-- A finite filesystem: an association list from path to entry; the
first binding for a path wins. -/
abbrev FS := List (String × Entry)

/-- Look a path up in the filesystem. -/
def lookupFS : FS → String → Option Entry
  | [], _ => none
  | (q, e) :: fs, p => if p = q then some e else lookupFS fs p

/-- Models `os.path.exists`. -/
def pathExistsFS (fs : FS) (p : String) : Bool :=
  (lookupFS fs p).isSome

/-- Create or overwrite an entry (used for `os.makedirs` and for the
session file written by the external converter). -/
def writeFS (fs : FS) (p : String) (e : Entry) : FS :=
  (p, e) :: fs

/-- The last character of a string, if any. -/
def strLast (s : String) : Option Char :=
  s.data.getLast?

/-- Models `os.path.join(a, b)` for the call sites in `main.py`, where
the second component is never an absolute path: drop an empty first
component, otherwise insert a separator unless one is already there. -/
def pathJoin (a b : String) : String :=
  if a = "" then b
  else if strLast a = some '/' then a ++ b
  else a ++ "/" ++ b

/-- Models `os.path.basename` on POSIX paths: the part after the last
separator. -/
def basename (p : String) : String :=
  String.mk ((p.data.reverse.takeWhile (fun c => c ≠ '/')).reverse)

/-- The observable external calls of one run, in order. -/
inductive Call where
  | tdataCheck
  | dupCheck
  | loadStandard
  | loadLegacy
  | toTelethonCall
  | connectCall
  | getMeCall
  | isAuthorizedCall
  | disconnectCall
deriving DecidableEq

/-- The second, legacy-format loading attempt of `load_tdesktop_client`
(lines 37-45): `TDesktop(tdata_folder, forceLegacy=True)` inside a
handler that catches every `Exception`; a loaded client is returned,
anything else falls through to `return None`. -/
def legacyAttempt (env : Env) (cs : List Call) :
    List Call × Except PyErr (Option TDesk) :=
  match env.legacyLoad with
  | .ok td =>
    if td.isLoaded then (cs ++ [.loadLegacy], .ok (some td))
    else (cs ++ [.loadLegacy], .ok none)
  | .error _ => (cs ++ [.loadLegacy], .ok none)

/-- Embeds `load_tdesktop_client` (lines 18-53).  The standard attempt
`TDesktop(tdata_folder)` is followed by `assert tdesk.isLoaded()`; an
`AssertionError` (from the assert, or from the constructor) is caught by
the inner handler and the legacy attempt runs; any other exception from
the standard attempt escapes the inner handler and is caught by the
outer catch-all, which returns `None` without trying the legacy path.
The first component records which constructor calls were made. -/
def load_tdesktop_client (env : Env) :
    List Call × Except PyErr (Option TDesk) :=
  let inner : List Call × Except PyErr (Option TDesk) :=
    match env.standardLoad with
    | .ok td =>
      if td.isLoaded then ([.loadStandard], .ok (some td))
      else legacyAttempt env [.loadStandard]
    | .error (.assertionError _) => legacyAttempt env [.loadStandard]
    | .error (.otherError m) => ([.loadStandard], .error (.otherError m))
  match inner with
  | (cs, .ok v) => (cs, .ok v)
  | (cs, .error _) => (cs, .ok none)

/-- Result of `convert_to_telethon_session`: the returned client on
success, the distinct no-exception failure of the persistence check
(lines 82-84), or a caught exception (line 88). -/
inductive ConvResult where
  | okClient (c : Client)
  | persistMissing
  | raised (e : PyErr)
deriving DecidableEq

/-- Modelled from the external Telethon library: `get_me()` returns
`None` for an unauthorized session, and line 79 then raises an
`AttributeError` when reading `me.first_name`. -/
def clientGetMe (env : Env) (c : Client) : Except PyErr Me :=
  if c.authorized then env.getMeResult
  else .error (.otherError "AttributeError")

/-- The filesystem after the external `ToTelethon` collaborator ran: it
may or may not have written the session file (the code double-checks for
the no-op case). -/
def convWrittenFS (env : Env) (fs : FS) (session_file : String) : FS :=
  if env.toTelethonWrites then writeFS fs session_file (.file env.sessionContents)
  else fs

/-- Embeds `convert_to_telethon_session` (lines 58-90): `ToTelethon`
(which, through the external collaborator, may write the session file),
then `connect`, then `get_me`, then the defensive
`os.path.exists(session_file)` check; every exception is caught by the
surrounding handler and turned into a `None` return. -/
def convert_to_telethon_session (env : Env) (fs : FS) (session_file : String) :
    ConvResult × FS × List Call :=
  match env.toTelethonResult with
  | .error e => (.raised e, fs, [.toTelethonCall])
  | .ok c =>
    match env.connectResult with
    | .error e =>
      (.raised e, convWrittenFS env fs session_file, [.toTelethonCall, .connectCall])
    | .ok _ =>
      match clientGetMe env c with
      | .error e =>
        (.raised e, convWrittenFS env fs session_file,
          [.toTelethonCall, .connectCall, .getMeCall])
      | .ok _ =>
        if pathExistsFS (convWrittenFS env fs session_file) session_file then
          (.okClient c, convWrittenFS env fs session_file,
            [.toTelethonCall, .connectCall, .getMeCall])
        else
          (.persistMissing, convWrittenFS env fs session_file,
            [.toTelethonCall, .connectCall, .getMeCall])

/-- Embeds `ensure_output_directory` (lines 93-101): the output
directory is always `os.path.join(os.getcwd(), concat of output)`,
created when absent. -/
def ensure_output_directory (cwd : String) (fs : FS) : String × FS :=
  let output_dir := pathJoin cwd "output"
  if pathExistsFS fs output_dir then (output_dir, fs)
  else (output_dir, writeFS fs output_dir .dir)

/-- Embeds `check_duplicate_session` (lines 104-113). -/
def check_duplicate_session (fs : FS) (session_path : String) : Bool :=
  pathExistsFS fs session_path

/-- The parsed CLI arguments: `argparse` defines a single required
positional `phone_number_directory` and no optional flags. -/
structure Args where
  phone_number_directory : String
deriving DecidableEq

/-- Embeds the `argparse` surface of `main` (lines 117-119): exactly one
positional argument is accepted; a missing argument, extra arguments, or
an unrecognized option make `parse_args` error out (SystemExit). -/
def parseArgs : List String → Option Args
  | [d] => if d.data.head? = some '-' then none else some ⟨d⟩
  | _ => none

/-- The outcome of one run of `main` (as observed through its early
returns, its final log line, and any exception escaping to `__main__`). -/
inductive ConvFail where
  | raised (e : PyErr)
  | persistMissing
deriving DecidableEq

/-- See `ConvFail`.  `usageError` is the SystemExit of `argparse`;
`fatal` is an exception escaping `main` and caught in `__main__`. -/
inductive Outcome where
  | usageError
  | tdataNotFound
  | skippedDuplicate
  | loadFailed
  | convertFailed (r : ConvFail)
  | success
  | fatal (e : PyErr)
deriving DecidableEq

/-- The observable result of one program run. -/
structure RunOut where
  outcome : Outcome
  fs : FS
  calls : List Call
deriving DecidableEq

/-- The tail of `main` after its two early-return checks (lines
139-153): load the TDesktop client, convert, and on success disconnect;
`fs1` is the filesystem after the output directory was ensured and
`session_file` the derived output path. -/
def mainLoadAndConvert (env : Env) (fs1 : FS) (session_file : String) : RunOut :=
  match load_tdesktop_client env with
  | (lcs, .error e) => ⟨.fatal e, fs1, .tdataCheck :: .dupCheck :: lcs⟩
  | (lcs, .ok none) => ⟨.loadFailed, fs1, .tdataCheck :: .dupCheck :: lcs⟩
  | (lcs, .ok (some _tdesk)) =>
    match convert_to_telethon_session env fs1 session_file with
    | (.raised e, fs2, ccs) =>
      ⟨.convertFailed (.raised e), fs2, .tdataCheck :: .dupCheck :: (lcs ++ ccs)⟩
    | (.persistMissing, fs2, ccs) =>
      ⟨.convertFailed .persistMissing, fs2, .tdataCheck :: .dupCheck :: (lcs ++ ccs)⟩
    | (.okClient _c, fs2, ccs) =>
      match env.disconnectResult with
      | .error e =>
        ⟨.fatal e, fs2, .tdataCheck :: .dupCheck :: (lcs ++ ccs ++ [.disconnectCall])⟩
      | .ok _ =>
        ⟨.success, fs2, .tdataCheck :: .dupCheck :: (lcs ++ ccs ++ [.disconnectCall])⟩

/-- Embeds `main` (lines 116-153) once the positional argument `d` is
parsed: derive `tdata_folder = d/tdata` and the session path
`{cwd}/output/{basename d}.session`, ensure the output directory, then
check tdata existence (line 130), the duplicate session (line 135), and
run the load-and-convert tail. -/
def mainWithArgs (env : Env) (cwd : String) (fs : FS) (d : String) : RunOut :=
  if pathExistsFS (ensure_output_directory cwd fs).2 (pathJoin d "tdata") = false then
    ⟨.tdataNotFound, (ensure_output_directory cwd fs).2, [.tdataCheck]⟩
  else if check_duplicate_session (ensure_output_directory cwd fs).2
      (pathJoin (ensure_output_directory cwd fs).1 (basename d ++ ".session")) then
    ⟨.skippedDuplicate, (ensure_output_directory cwd fs).2, [.tdataCheck, .dupCheck]⟩
  else
    mainLoadAndConvert env (ensure_output_directory cwd fs).2
      (pathJoin (ensure_output_directory cwd fs).1 (basename d ++ ".session"))

/-- Embeds a whole program run on argument vector `argv` with working
directory `cwd` over filesystem `fs`, external calls answered by `env`. -/
def runMain (env : Env) (cwd : String) (fs : FS) (argv : List String) : RunOut :=
  match parseArgs argv with
  | none => ⟨.usageError, fs, []⟩
  | some args => mainWithArgs env cwd fs args.phone_number_directory

/-- Embeds the `__main__` block (lines 156-161): `asyncio.run(main())`
inside `except Exception`, which logs and swallows, so every modelled
exception yields a normal exit; only the SystemExit of `argparse`
escapes, with status 2. -/
def exitCode : Outcome → Nat
  | .usageError => 2
  | _ => 0

/-- The (identifier, sourcePath) pairs `main` forms from its input
(lines 122-131): always at most the base directory itself, as a single
account; no child directory is ever examined. -/
def codeDiscover (fs : FS) (base : String) : List (String × String) :=
  let tdata := pathJoin base "tdata"
  if pathExistsFS fs tdata then [(basename base, tdata)] else []

/-- The name of `p` as an immediate child of `base`: the remainder after
the prefix `base ++ sep`, provided it is nonempty and contains no
further separator. -/
def childNameOf (base p : String) : Option String :=
  let b := base.data ++ ['/']
  let pd := p.data
  if pd.take b.length = b then
    let rest := pd.drop b.length
    if rest ≠ [] ∧ rest.all (fun c => c ≠ '/') then some (String.mk rest)
    else none
  else none

/-- Modelled from the spec: the Directory Discovery contract of section
4.1, which `src/main.py` does not implement (its `main` never enumerates
child directories).  If the base itself directly contains a `tdata`
subfolder, one pair for the base; otherwise one pair per immediate child
directory containing a `tdata` subfolder.  Stated here for comparison
with `codeDiscover`. -/
def specDiscover (fs : FS) (base : String) : List (String × String) :=
  if pathExistsFS fs (pathJoin base "tdata") then
    [(basename base, pathJoin base "tdata")]
  else
    (fs.map Prod.fst).filterMap (fun p =>
      match childNameOf base p with
      | some c =>
        if lookupFS fs p = some .dir ∧ pathExistsFS fs (pathJoin p "tdata") then
          some (c, pathJoin p "tdata")
        else none
      | none => none)

/-- The tdata path `main` derives from its positional argument (line 122). -/
def tdataPathOf (d : String) : String := pathJoin d "tdata"

/-- The session-file path `main` derives (lines 126-127):
`{cwd}/output/{basename d}.session`. -/
def sessionPathOf (cwd d : String) : String :=
  pathJoin (pathJoin cwd "output") (basename d ++ ".session")

theorem parseArgs_single (d : String) (hd : ¬ d.data.head? = some '-') :
    parseArgs [d] = some ⟨d⟩ := by
  simp [parseArgs, hd]

theorem strLast_append (a b : String) (h : b.data ≠ []) :
    strLast (a ++ b) = strLast b := by
  simp [strLast, String.data_append, List.getLast?_append_of_ne_nil _ h]

theorem ne_of_strLast_ne {s t : String} (h : strLast s ≠ strLast t) : s ≠ t :=
  fun hc => h (by rw [hc])

theorem strLast_pathJoin (a b : String) (h : b.data ≠ []) :
    strLast (pathJoin a b) = strLast b := by
  by_cases h1 : a = ""
  · simp [pathJoin, h1]
  · by_cases h2 : strLast a = some '/'
    · simp [pathJoin, h1, h2, strLast_append a b h]
    · unfold pathJoin
      rw [if_neg h1, if_neg h2]
      exact strLast_append (a ++ "/") b h

theorem strLast_tdataPath (d : String) : strLast (tdataPathOf d) = some 'a' := by
  rw [tdataPathOf, strLast_pathJoin _ _ (by decide)]; decide

theorem strLast_outputPath (cwd : String) :
    strLast (pathJoin cwd "output") = some 't' := by
  rw [strLast_pathJoin _ _ (by decide)]; decide

theorem sessionSuffix_ne_nil (phone : String) : (phone ++ ".session").data ≠ [] := by
  simp [String.data_append]

theorem strLast_sessionPath (cwd d : String) :
    strLast (sessionPathOf cwd d) = some 'n' := by
  rw [sessionPathOf, strLast_pathJoin _ _ (sessionSuffix_ne_nil (basename d)),
    strLast_append _ _ (by decide)]
  decide

theorem tdataPath_ne_outputPath (d cwd : String) :
    tdataPathOf d ≠ pathJoin cwd "output" :=
  ne_of_strLast_ne (by rw [strLast_tdataPath, strLast_outputPath]; decide)

theorem sessionPath_ne_outputPath (cwd d cwd2 : String) :
    sessionPathOf cwd d ≠ pathJoin cwd2 "output" :=
  ne_of_strLast_ne (by rw [strLast_sessionPath, strLast_outputPath]; decide)

theorem lookupFS_writeFS (fs : FS) (q p : String) (e : Entry) :
    lookupFS (writeFS fs q e) p = if p = q then some e else lookupFS fs p := rfl

theorem fst_ensure (cwd : String) (fs : FS) :
    (ensure_output_directory cwd fs).1 = pathJoin cwd "output" := by
  simp only [ensure_output_directory]
  split <;> rfl

theorem lookupFS_ensure (cwd : String) (fs : FS) (p : String)
    (h : p ≠ pathJoin cwd "output") :
    lookupFS (ensure_output_directory cwd fs).2 p = lookupFS fs p := by
  simp only [ensure_output_directory]
  split
  · rfl
  · simp [writeFS, lookupFS, h]

theorem pathExistsFS_ensure (cwd : String) (fs : FS) (p : String)
    (h : p ≠ pathJoin cwd "output") :
    pathExistsFS (ensure_output_directory cwd fs).2 p = pathExistsFS fs p := by
  simp [pathExistsFS, lookupFS_ensure cwd fs p h]

/-- Characterization of a single-argument run: the tdata and duplicate
checks read the original filesystem (the only earlier mutation,
creating the output directory, touches a different path), the derived
paths are `tdataPathOf` and `sessionPathOf`. -/
theorem runMain_single (env : Env) (cwd : String) (fs : FS) (d : String)
    (hd : ¬ d.data.head? = some '-') :
    runMain env cwd fs [d] =
      if pathExistsFS fs (tdataPathOf d) = false then
        ⟨.tdataNotFound, (ensure_output_directory cwd fs).2, [.tdataCheck]⟩
      else if pathExistsFS fs (sessionPathOf cwd d) then
        ⟨.skippedDuplicate, (ensure_output_directory cwd fs).2, [.tdataCheck, .dupCheck]⟩
      else
        mainLoadAndConvert env (ensure_output_directory cwd fs).2 (sessionPathOf cwd d) := by
  unfold runMain
  rw [parseArgs_single d hd]
  show mainWithArgs env cwd fs d = _
  unfold mainWithArgs
  simp only [check_duplicate_session, fst_ensure,
    pathExistsFS_ensure cwd fs (pathJoin d "tdata") (tdataPath_ne_outputPath d cwd),
    pathExistsFS_ensure cwd fs (pathJoin (pathJoin cwd "output") (basename d ++ ".session"))
      (sessionPath_ne_outputPath cwd d cwd)]
  rfl

theorem load_calls_shape {env : Env} {lcs : List Call} {r : Except PyErr (Option TDesk)}
    (h : load_tdesktop_client env = (lcs, r)) :
    lcs = [.loadStandard] ∨ lcs = [.loadStandard, .loadLegacy] := by
  suffices hs : (load_tdesktop_client env).1 = [.loadStandard] ∨
      (load_tdesktop_client env).1 = [.loadStandard, .loadLegacy] by
    rw [h] at hs; exact hs
  unfold load_tdesktop_client legacyAttempt
  cases hse : env.standardLoad with
  | ok td =>
    by_cases hl : td.isLoaded
    · simp [hl]
    · cases hle : env.legacyLoad with
      | ok tl => by_cases h2 : tl.isLoaded <;> simp [hl, h2]
      | error el => simp [hl]
  | error e =>
    cases e with
    | assertionError m =>
      cases hle : env.legacyLoad with
      | ok tl => by_cases h2 : tl.isLoaded <;> simp [h2]
      | error el => simp
    | otherError m => simp

theorem conv_calls_shape {env : Env} {fs : FS} {sf : String} {cr : ConvResult}
    {fs2 : FS} {ccs : List Call}
    (h : convert_to_telethon_session env fs sf = (cr, fs2, ccs)) :
    ccs = [.toTelethonCall] ∨ ccs = [.toTelethonCall, .connectCall] ∨
      ccs = [.toTelethonCall, .connectCall, .getMeCall] := by
  suffices hs : (convert_to_telethon_session env fs sf).2.2 = [.toTelethonCall] ∨
      (convert_to_telethon_session env fs sf).2.2 = [.toTelethonCall, .connectCall] ∨
      (convert_to_telethon_session env fs sf).2.2 = [.toTelethonCall, .connectCall, .getMeCall] by
    rw [h] at hs; exact hs
  unfold convert_to_telethon_session
  cases htt : env.toTelethonResult with
  | ok c =>
    cases hc : env.connectResult with
    | ok u =>
      cases hm : clientGetMe env c with
      | ok me =>
        by_cases hp : pathExistsFS (convWrittenFS env fs sf) sf = true <;>
          simp [hm, hp]
      | error e => simp [hm]
    | error e => simp
  | error e => simp

/-- Trace facts shared by several claims: at most one load and one
conversion attempt per run, no authorization-state query ever, the
duplicate check precedes the load, and the pipeline steps appear in
order. -/
abbrev TraceInv (l : List Call) : Prop :=
  l.count .toTelethonCall ≤ 1 ∧ l.count .loadStandard ≤ 1 ∧
  Call.isAuthorizedCall ∉ l ∧
  (Call.loadStandard ∈ l → Call.dupCheck ∈ l.takeWhile (fun c => c ≠ Call.loadStandard)) ∧
  (Call.toTelethonCall ∈ l → Call.loadStandard ∈ l.takeWhile (fun c => c ≠ Call.toTelethonCall)) ∧
  (Call.connectCall ∈ l → Call.toTelethonCall ∈ l.takeWhile (fun c => c ≠ Call.connectCall)) ∧
  (Call.getMeCall ∈ l → Call.connectCall ∈ l.takeWhile (fun c => c ≠ Call.getMeCall))

theorem runMain_traceInv (env : Env) (cwd : String) (fs : FS) (argv : List String) :
    TraceInv (runMain env cwd fs argv).calls := by
  unfold runMain
  split
  · exact of_decide_eq_true rfl
  · unfold mainWithArgs
    split
    · exact of_decide_eq_true rfl
    · split
      · exact of_decide_eq_true rfl
      · unfold mainLoadAndConvert
        split
        · next lcs e heq =>
          rcases load_calls_shape heq with rfl | rfl <;> exact of_decide_eq_true rfl
        · next lcs heq =>
          rcases load_calls_shape heq with rfl | rfl <;> exact of_decide_eq_true rfl
        · next lcs _tdesk heq =>
          rcases load_calls_shape heq with rfl | rfl <;>
          · split
            · next e fs2 ccs heq2 =>
              rcases conv_calls_shape heq2 with rfl | rfl | rfl <;> exact of_decide_eq_true rfl
            · next fs2 ccs heq2 =>
              rcases conv_calls_shape heq2 with rfl | rfl | rfl <;> exact of_decide_eq_true rfl
            · next c fs2 ccs heq2 =>
              rcases conv_calls_shape heq2 with rfl | rfl | rfl <;>
              · split
                · exact of_decide_eq_true rfl
                · exact of_decide_eq_true rfl

/-- Fixture: every external call succeeds and the converter writes the file. -/
def envAllOk : Env where
  standardLoad := .ok ⟨true, 1⟩
  legacyLoad := .error (.otherError "unused")
  toTelethonResult := .ok ⟨true⟩
  toTelethonWrites := true
  sessionContents := "SESSION"
  connectResult := .ok ()
  getMeResult := .ok ⟨"Alice", 7⟩
  disconnectResult := .ok ()

/-- Fixture: the converted session is not authorized. -/
def envUnauthorized : Env := { envAllOk with toTelethonResult := .ok ⟨false⟩ }

/-- Fixture: the identity fetch raises after a successful connect. -/
def envGetMeFails : Env := { envAllOk with getMeResult := .error (.otherError "RPCError") }

/-- Fixture: the collaborator reports success but writes no file. -/
def envNoWrite : Env := { envAllOk with toTelethonWrites := false }

/-- Fixture: the standard load reports zero accounts and the legacy load raises. -/
def envLoadZero : Env :=
  { envAllOk with standardLoad := .ok ⟨false, 0⟩, legacyLoad := .error (.otherError "legacy") }

/-- Fixture: one account directory with a tdata subfolder. -/
def fsSingle : FS := [("acc", .dir), ("acc/tdata", .dir)]

/-- Fixture: a container directory with one child holding tdata and one
child without it. -/
def fsMulti : FS :=
  [("accounts", .dir), ("accounts/+1555", .dir), ("accounts/+1555/tdata", .dir),
   ("accounts/+1777", .dir)]

/-- Fixture: a container directory with two children holding tdata. -/
def fsTwoKids : FS :=
  [("accounts", .dir), ("accounts/+1555", .dir), ("accounts/+1555/tdata", .dir),
   ("accounts/+1888", .dir), ("accounts/+1888/tdata", .dir)]

/-- Fixture: account directory with tdata, and an already existing
converted session under the working directory /w. -/
def fsDup : FS :=
  [("acc", .dir), ("acc/tdata", .dir), ("/w/output", .dir),
   ("/w/output/acc.session", .file "OLD")]

/-- C1: the program does not auto-detect the container shape.  With base
directory `accounts` whose child `accounts/+1555` contains `tdata` (and
child `accounts/+1777` does not), the discovery described by the spec
yields the qualifying child, but the code derives no pair at all. -/
theorem c1_counterexample :
    codeDiscover fsMulti "accounts" = [] ∧
    specDiscover fsMulti "accounts" = [("+1555", "accounts/+1555/tdata")] := by decide

/-- C1 (amended): discovery always treats the base directory as a single
account: if `base/tdata` exists, exactly one pair (basename, tdata path)
is produced; otherwise no pair is produced, the run ends with the
tdata-not-found outcome, and no load or conversion is attempted —
immediate children are never examined. -/
theorem c1_single_account_discovery (env : Env) (cwd : String) (fs : FS) (d : String)
    (hd : ¬ d.data.head? = some '-') :
    (pathExistsFS fs (tdataPathOf d) = true →
      codeDiscover fs d = [(basename d, tdataPathOf d)]) ∧
    (pathExistsFS fs (tdataPathOf d) = false →
      codeDiscover fs d = [] ∧
      (runMain env cwd fs [d]).outcome = .tdataNotFound ∧
      Call.loadStandard ∉ (runMain env cwd fs [d]).calls ∧
      Call.toTelethonCall ∉ (runMain env cwd fs [d]).calls) := by
  constructor
  · intro h
    simp [codeDiscover, tdataPathOf] at h ⊢
    simp [h]
  · intro h
    rw [runMain_single env cwd fs d hd, if_pos h]
    refine ⟨?_, rfl, of_decide_eq_true rfl, of_decide_eq_true rfl⟩
    simp [codeDiscover, tdataPathOf] at h ⊢
    simp [h]

/-- C1 witness: the theorem applied to the single-account fixture and to
the container fixture. -/
theorem c1_witness :
    codeDiscover fsSingle "acc" = [("acc", "acc/tdata")] ∧
    (runMain envAllOk "/w" fsMulti ["accounts"]).outcome = .tdataNotFound :=
  ⟨(c1_single_account_discovery envAllOk "/w" fsSingle "acc" (by decide)).1 (by decide),
   ((c1_single_account_discovery envAllOk "/w" fsMulti "accounts" (by decide)).2
     (by decide)).2.1⟩

/-- C2: no batch fan-out exists.  On a container directory in which the
spec discovery finds two jobs, the program attempts no load and no
conversion at all: it ends with the tdata-not-found outcome. -/
theorem c2_counterexample :
    (specDiscover fsTwoKids "accounts").length = 2 ∧
    (runMain envAllOk "/w" fsTwoKids ["accounts"]).outcome = .tdataNotFound ∧
    (runMain envAllOk "/w" fsTwoKids ["accounts"]).calls.count .toTelethonCall = 0 ∧
    (runMain envAllOk "/w" fsTwoKids ["accounts"]).calls.count .loadStandard = 0 := by decide

/-- C2 (amended): the program attempts at most one conversion job per
invocation — the base directory itself, processed sequentially — and a
conversion failure never crashes the run (the exit status stays 0). -/
theorem c2_at_most_one_job (env : Env) (cwd : String) (fs : FS) (argv : List String) :
    (runMain env cwd fs argv).calls.count .toTelethonCall ≤ 1 ∧
    (runMain env cwd fs argv).calls.count .loadStandard ≤ 1 ∧
    (∀ r, (runMain env cwd fs argv).outcome = .convertFailed r →
      exitCode (runMain env cwd fs argv).outcome = 0) := by
  refine ⟨(runMain_traceInv env cwd fs argv).1, (runMain_traceInv env cwd fs argv).2.1, ?_⟩
  intro r h
  rw [h]
  rfl

/-- C2 witness: on a failing job the run still exits 0 and made exactly
one conversion attempt. -/
theorem c2_witness :
    (runMain envGetMeFails "/w" fsSingle ["acc"]).calls.count .toTelethonCall ≤ 1 ∧
    exitCode (runMain envGetMeFails "/w" fsSingle ["acc"]).outcome = 0 :=
  ⟨(c2_at_most_one_job envGetMeFails "/w" fsSingle ["acc"]).1,
   (c2_at_most_one_job envGetMeFails "/w" fsSingle ["acc"]).2.2
     (.raised (.otherError "RPCError")) (by decide)⟩

/-- C3: a missing base directory does not terminate the run abnormally:
with an empty filesystem the run merely logs and returns, and the
process exit status is 0, not non-zero. -/
theorem c3_counterexample :
    pathExistsFS ([] : FS) "missing" = false ∧
    (runMain envAllOk "/w" [] ["missing"]).outcome = .tdataNotFound ∧
    exitCode (runMain envAllOk "/w" [] ["missing"]).outcome = 0 := by decide

/-- C3 (amended): when `d/tdata` does not exist the run ends with the
tdata-not-found outcome before any job starts (no load, no conversion)
and exits 0; moreover every run except an argparse usage error exits 0,
so individual job failures are reported via logs only. -/
theorem c3_always_exits_zero (env : Env) (cwd : String) (fs : FS) (d : String)
    (hd : ¬ d.data.head? = some '-')
    (ht : pathExistsFS fs (tdataPathOf d) = false) :
    (runMain env cwd fs [d]).outcome = .tdataNotFound ∧
    exitCode (runMain env cwd fs [d]).outcome = 0 ∧
    Call.loadStandard ∉ (runMain env cwd fs [d]).calls ∧
    Call.toTelethonCall ∉ (runMain env cwd fs [d]).calls ∧
    (∀ env2 cwd2 fs2 argv2, (runMain env2 cwd2 fs2 argv2).outcome ≠ .usageError →
      exitCode (runMain env2 cwd2 fs2 argv2).outcome = 0) := by
  rw [runMain_single env cwd fs d hd, if_pos ht]
  refine ⟨rfl, rfl, of_decide_eq_true rfl, of_decide_eq_true rfl, ?_⟩
  intro env2 cwd2 fs2 argv2 h
  cases ho : (runMain env2 cwd2 fs2 argv2).outcome <;> first | rfl | exact absurd ho h

/-- C3 witness: the theorem applied to the empty filesystem. -/
theorem c3_witness :
    (runMain envAllOk "/w" [] ["missing"]).outcome = .tdataNotFound ∧
    exitCode (runMain envAllOk "/w" [] ["missing"]).outcome = 0 :=
  ⟨(c3_always_exits_zero envAllOk "/w" [] "missing" (by decide) (by decide)).1,
   (c3_always_exits_zero envAllOk "/w" [] "missing" (by decide) (by decide)).2.1⟩

/-- C4: the connection is leaked on failure.  When `connect` succeeds
and the identity fetch then raises, the job fails and the run never
issues a disconnect: the open connection is not released. -/
theorem c4_counterexample :
    (runMain envGetMeFails "/w" fsSingle ["acc"]).outcome =
      .convertFailed (.raised (.otherError "RPCError")) ∧
    envGetMeFails.connectResult = .ok () ∧
    Call.connectCall ∈ (runMain envGetMeFails "/w" fsSingle ["acc"]).calls ∧
    Call.disconnectCall ∉ (runMain envGetMeFails "/w" fsSingle ["acc"]).calls := by decide

/-- C4 (amended): the connection is released only on full success:
`main` disconnects exactly when the whole pipeline succeeded, and on any
conversion failure, load failure or duplicate skip the disconnect call
never happens. -/
theorem c4_release_only_on_success (env : Env) (cwd : String) (fs : FS) (argv : List String) :
    ((runMain env cwd fs argv).outcome = .success →
      Call.disconnectCall ∈ (runMain env cwd fs argv).calls) ∧
    (∀ r, (runMain env cwd fs argv).outcome = .convertFailed r →
      Call.disconnectCall ∉ (runMain env cwd fs argv).calls) ∧
    ((runMain env cwd fs argv).outcome = .loadFailed →
      Call.disconnectCall ∉ (runMain env cwd fs argv).calls) ∧
    ((runMain env cwd fs argv).outcome = .skippedDuplicate →
      Call.disconnectCall ∉ (runMain env cwd fs argv).calls) := by
  unfold runMain
  split
  · exact ⟨by simp, fun r h => by simp at h, by simp, by simp⟩
  · unfold mainWithArgs
    split
    · exact ⟨by simp, fun r h => by simp at h, by simp, by simp⟩
    · split
      · exact ⟨by simp, fun r h => by simp at h, by simp,
          fun _ => of_decide_eq_true rfl⟩
      · unfold mainLoadAndConvert
        split
        · next lcs e heq =>
          exact ⟨by simp, fun r h => by simp at h, by simp, by simp⟩
        · next lcs heq =>
          rcases load_calls_shape heq with rfl | rfl <;>
            exact ⟨by simp, fun r h => by simp at h,
              fun _ => of_decide_eq_true rfl, by simp⟩
        · next lcs _tdesk heq =>
          rcases load_calls_shape heq with rfl | rfl <;>
          · split
            · next e fs2 ccs heq2 =>
              rcases conv_calls_shape heq2 with rfl | rfl | rfl <;>
                exact ⟨by simp, fun r _ => of_decide_eq_true rfl, by simp, by simp⟩
            · next fs2 ccs heq2 =>
              rcases conv_calls_shape heq2 with rfl | rfl | rfl <;>
                exact ⟨by simp, fun r _ => of_decide_eq_true rfl, by simp, by simp⟩
            · next c fs2 ccs heq2 =>
              rcases conv_calls_shape heq2 with rfl | rfl | rfl <;>
              · split
                · exact ⟨by simp, fun r h => by simp at h, by simp, by simp⟩
                · exact ⟨fun _ => of_decide_eq_true rfl, fun r h => by simp at h,
                    by simp, by simp⟩

/-- C4 witness: the theorem applied to a fully successful run and a
failing run. -/
theorem c4_witness :
    Call.disconnectCall ∈ (runMain envAllOk "/w" fsSingle ["acc"]).calls ∧
    Call.disconnectCall ∉ (runMain envUnauthorized "/w" fsSingle ["acc"]).calls :=
  ⟨(c4_release_only_on_success envAllOk "/w" fsSingle ["acc"]).1 (by decide),
   (c4_release_only_on_success envUnauthorized "/w" fsSingle ["acc"]).2.1
     (.raised (.otherError "AttributeError")) (by decide)⟩

/-- C5: a pre-existing converted session is never touched: whenever the
session file already exists, the run skips the job entirely (no load, no
conversion, early return without error) and the file keeps its contents;
the skip also holds trivially when the run ends even earlier on a
missing tdata folder. -/
theorem c5_existing_session_preserved (env : Env) (cwd : String) (fs : FS) (d s : String)
    (hd : ¬ d.data.head? = some '-')
    (hdup : lookupFS fs (sessionPathOf cwd d) = some (.file s)) :
    lookupFS (runMain env cwd fs [d]).fs (sessionPathOf cwd d) = some (.file s) ∧
    (pathExistsFS fs (tdataPathOf d) = true →
      (runMain env cwd fs [d]).outcome = .skippedDuplicate ∧
      Call.loadStandard ∉ (runMain env cwd fs [d]).calls ∧
      Call.toTelethonCall ∉ (runMain env cwd fs [d]).calls) := by
  rw [runMain_single env cwd fs d hd]
  have hex : pathExistsFS fs (sessionPathOf cwd d) = true := by
    simp [pathExistsFS, hdup]
  by_cases ht : pathExistsFS fs (tdataPathOf d) = false
  · rw [if_pos ht]
    refine ⟨?_, ?_⟩
    · show lookupFS (ensure_output_directory cwd fs).2 (sessionPathOf cwd d) = some (.file s)
      rw [lookupFS_ensure cwd fs _ (sessionPath_ne_outputPath cwd d cwd)]
      exact hdup
    · intro h
      rw [h] at ht
      simp at ht
  · rw [if_neg ht, if_pos hex]
    refine ⟨?_, fun _ => ⟨rfl, of_decide_eq_true rfl, of_decide_eq_true rfl⟩⟩
    show lookupFS (ensure_output_directory cwd fs).2 (sessionPathOf cwd d) = some (.file s)
    rw [lookupFS_ensure cwd fs _ (sessionPath_ne_outputPath cwd d cwd)]
    exact hdup

/-- C5 witness: the theorem applied to the duplicate fixture; the old
contents survive the run untouched. -/
theorem c5_witness :
    lookupFS (runMain envAllOk "/w" fsDup ["acc"]).fs "/w/output/acc.session" =
      some (.file "OLD") ∧
    (runMain envAllOk "/w" fsDup ["acc"]).outcome = .skippedDuplicate :=
  ⟨(c5_existing_session_preserved envAllOk "/w" fsDup "acc" "OLD" (by decide) (by decide)).1,
   ((c5_existing_session_preserved envAllOk "/w" fsDup "acc" "OLD" (by decide)
     (by decide)).2 (by decide)).1⟩

/-- C6: the converter never confirms the authorization state.  With an
unauthorized converted session the job fails only through the identity
fetch, with a generic caught exception — not a distinct
authentication-required failure — and no authorization query ever
appears in the trace. -/
theorem c6_counterexample :
    (runMain envUnauthorized "/w" fsSingle ["acc"]).outcome =
      .convertFailed (.raised (.otherError "AttributeError")) ∧
    Call.isAuthorizedCall ∉ (runMain envUnauthorized "/w" fsSingle ["acc"]).calls ∧
    Call.getMeCall ∈ (runMain envUnauthorized "/w" fsSingle ["acc"]).calls := by decide

/-- C6 (amended): after conversion the code connects and fetches the own
identity; it never queries the authorization state.  An unauthorized
converted session makes the identity fetch raise, so the job fails with
a generic conversion failure (not a distinct authentication-required
error), and the conversion is attempted exactly once (no retry). -/
theorem c6_no_authorization_check (env : Env) (cwd : String) (fs : FS) (d : String)
    (td : TDesk) (cl : Client)
    (hd : ¬ d.data.head? = some '-')
    (ht : pathExistsFS fs (tdataPathOf d) = true)
    (hs : pathExistsFS fs (sessionPathOf cwd d) = false)
    (hload : env.standardLoad = .ok td) (hloaded : td.isLoaded = true)
    (htt : env.toTelethonResult = .ok cl) (hauth : cl.authorized = false)
    (hconn : env.connectResult = .ok ()) :
    (runMain env cwd fs [d]).outcome =
      .convertFailed (.raised (.otherError "AttributeError")) ∧
    Call.isAuthorizedCall ∉ (runMain env cwd fs [d]).calls ∧
    (runMain env cwd fs [d]).calls.count .toTelethonCall = 1 := by
  have hL : load_tdesktop_client env = ([.loadStandard], .ok (some td)) := by
    simp [load_tdesktop_client, hload, hloaded]
  have hC : convert_to_telethon_session env (ensure_output_directory cwd fs).2
      (sessionPathOf cwd d) =
      (.raised (.otherError "AttributeError"),
        convWrittenFS env (ensure_output_directory cwd fs).2 (sessionPathOf cwd d),
        [.toTelethonCall, .connectCall, .getMeCall]) := by
    simp [convert_to_telethon_session, htt, hconn, clientGetMe, hauth]
  rw [runMain_single env cwd fs d hd, if_neg (by simp [ht]), if_neg (by simp [hs])]
  unfold mainLoadAndConvert
  rw [hL, hC]
  exact ⟨rfl, of_decide_eq_true rfl, of_decide_eq_true rfl⟩

/-- C6 witness: the theorem applied to the unauthorized fixture. -/
theorem c6_witness :
    (runMain envUnauthorized "/w" fsSingle ["acc"]).calls.count .toTelethonCall = 1 ∧
    Call.isAuthorizedCall ∉ (runMain envUnauthorized "/w" fsSingle ["acc"]).calls :=
  ⟨(c6_no_authorization_check envUnauthorized "/w" fsSingle "acc" ⟨true, 1⟩ ⟨false⟩
      (by decide) (by decide) (by decide) rfl rfl rfl rfl rfl).2.2,
   (c6_no_authorization_check envUnauthorized "/w" fsSingle "acc" ⟨true, 1⟩ ⟨false⟩
      (by decide) (by decide) (by decide) rfl rfl rfl rfl rfl).2.1⟩

/-- C7: the duplicate check runs before the load, not after it.  With an
already existing output file and a source whose standard load would
report zero accounts, the run skips the job without ever invoking the
loader — the existence check was consulted first. -/
theorem c7_counterexample :
    (runMain envLoadZero "/w" fsDup ["acc"]).outcome = .skippedDuplicate ∧
    Call.dupCheck ∈ (runMain envLoadZero "/w" fsDup ["acc"]).calls ∧
    Call.loadStandard ∉ (runMain envLoadZero "/w" fsDup ["acc"]).calls := by decide

/-- C7 (amended): within one job the existence check is consulted first;
the source session is loaded only afterwards (when the output is
absent), and the conversion, connect and identity-fetch steps follow in
this order. -/
theorem c7_check_then_load_order (env : Env) (cwd : String) (fs : FS) (argv : List String) :
    (Call.loadStandard ∈ (runMain env cwd fs argv).calls →
      Call.dupCheck ∈ (runMain env cwd fs argv).calls.takeWhile
        (fun c => c ≠ Call.loadStandard)) ∧
    (Call.toTelethonCall ∈ (runMain env cwd fs argv).calls →
      Call.loadStandard ∈ (runMain env cwd fs argv).calls.takeWhile
        (fun c => c ≠ Call.toTelethonCall)) ∧
    (Call.connectCall ∈ (runMain env cwd fs argv).calls →
      Call.toTelethonCall ∈ (runMain env cwd fs argv).calls.takeWhile
        (fun c => c ≠ Call.connectCall)) ∧
    (Call.getMeCall ∈ (runMain env cwd fs argv).calls →
      Call.connectCall ∈ (runMain env cwd fs argv).calls.takeWhile
        (fun c => c ≠ Call.getMeCall)) :=
  ⟨(runMain_traceInv env cwd fs argv).2.2.2.1, (runMain_traceInv env cwd fs argv).2.2.2.2.1,
   (runMain_traceInv env cwd fs argv).2.2.2.2.2.1,
   (runMain_traceInv env cwd fs argv).2.2.2.2.2.2⟩

/-- C7 witness: on a fully successful run the load happens strictly
after the duplicate check and before the conversion. -/
theorem c7_witness :
    Call.dupCheck ∈ ((runMain envAllOk "/w" fsSingle ["acc"]).calls.takeWhile
      (fun c => c ≠ Call.loadStandard)) ∧
    Call.loadStandard ∈ ((runMain envAllOk "/w" fsSingle ["acc"]).calls.takeWhile
      (fun c => c ≠ Call.toTelethonCall)) :=
  ⟨(c7_check_then_load_order envAllOk "/w" fsSingle ["acc"]).1 (by decide),
   (c7_check_then_load_order envAllOk "/w" fsSingle ["acc"]).2.1 (by decide)⟩

theorem conv_okClient_exists {env : Env} {fs : FS} {sf : String} {c : Client} {fs2 : FS}
    {ccs : List Call}
    (h : convert_to_telethon_session env fs sf = (.okClient c, fs2, ccs)) :
    pathExistsFS fs2 sf = true := by
  unfold convert_to_telethon_session at h
  split at h
  · simp at h
  · split at h
    · simp at h
    · split at h
      · simp at h
      · split at h
        · next hp =>
          simp only [Prod.mk.injEq] at h
          obtain ⟨-, hfs, -⟩ := h
          rw [← hfs]
          exact hp
        · simp at h

theorem conv_okClient_lookup {env : Env} {fs : FS} {sf : String} {c : Client} {fs2 : FS}
    {ccs : List Call}
    (h : convert_to_telethon_session env fs sf = (.okClient c, fs2, ccs))
    (habs : pathExistsFS fs sf = false) :
    lookupFS fs2 sf = some (.file env.sessionContents) := by
  unfold convert_to_telethon_session at h
  split at h
  · simp at h
  · split at h
    · simp at h
    · split at h
      · simp at h
      · split at h
        · next hp =>
          simp only [Prod.mk.injEq] at h
          obtain ⟨-, hfs, -⟩ := h
          rw [← hfs]
          unfold convWrittenFS at hp ⊢
          by_cases hw : env.toTelethonWrites = true
          · rw [if_pos hw]
            simp [writeFS, lookupFS]
          · rw [if_neg hw] at hp
            rw [habs] at hp
            simp at hp
        · simp at h

/-- C8: no CLI flag selects the output directory: the argument parser
accepts exactly one positional argument, and every attempt to pass an
output option is rejected. -/
theorem c8_counterexample :
    parseArgs ["accounts/+1555", "--output", "custom"] = none ∧
    parseArgs ["accounts/+1555", "-o", "custom"] = none ∧
    parseArgs ["--output=custom"] = none := by decide

/-- C8 (amended): the output path is deterministic but not
configurable: a successful run leaves the written session exactly at
`{cwd}/output/{basename d}.session`, and the parser rejects any argument
vector with more than the single positional input directory. -/
theorem c8_output_path_fixed (env : Env) (cwd : String) (fs : FS) (d : String)
    (hd : ¬ d.data.head? = some '-')
    (hsucc : (runMain env cwd fs [d]).outcome = .success) :
    lookupFS (runMain env cwd fs [d]).fs (sessionPathOf cwd d) =
      some (.file env.sessionContents) ∧
    (∀ a b rest, parseArgs (a :: b :: rest) = none) := by
  rw [runMain_single env cwd fs d hd] at hsucc ⊢
  refine ⟨?_, fun a b rest => rfl⟩
  by_cases ht : pathExistsFS fs (tdataPathOf d) = false
  · rw [if_pos ht] at hsucc; simp at hsucc
  · rw [if_neg ht] at hsucc ⊢
    by_cases hdup : pathExistsFS fs (sessionPathOf cwd d) = true
    · rw [if_pos hdup] at hsucc; simp at hsucc
    · rw [if_neg hdup] at hsucc ⊢
      have hdup' : pathExistsFS fs (sessionPathOf cwd d) = false := by
        revert hdup
        cases pathExistsFS fs (sessionPathOf cwd d) <;> simp
      unfold mainLoadAndConvert at hsucc ⊢
      rcases hl : load_tdesktop_client env with ⟨lcs, r⟩
      rw [hl] at hsucc
      rcases r with e | o
      · simp at hsucc
      rcases o with _ | td
      · simp at hsucc
      rcases hc : convert_to_telethon_session env (ensure_output_directory cwd fs).2
          (sessionPathOf cwd d) with ⟨cr, fs2, ccs⟩
      rw [hc] at hsucc
      rcases cr with c | _ | e
      · cases hdc : env.disconnectResult with
        | error e2 => rw [hdc] at hsucc; simp at hsucc
        | ok u =>
          show lookupFS fs2 (sessionPathOf cwd d) = some (.file env.sessionContents)
          exact conv_okClient_lookup hc (by
            rw [pathExistsFS_ensure cwd fs _ (sessionPath_ne_outputPath cwd d cwd)]
            exact hdup')
      · simp at hsucc
      · simp at hsucc

/-- C8 witness: the theorem applied to the all-success fixture. -/
theorem c8_witness :
    lookupFS (runMain envAllOk "/w" fsSingle ["acc"]).fs "/w/output/acc.session" =
      some (.file "SESSION") ∧
    parseArgs ["acc", "--output", "custom"] = none :=
  ⟨(c8_output_path_fixed envAllOk "/w" fsSingle "acc" (by decide) (by decide)).1,
   (c8_output_path_fixed envAllOk "/w" fsSingle "acc" (by decide) (by decide)).2
     "acc" "--output" ["custom"]⟩

/-- C9: after the conversion, connect and identity steps all return
without raising, the code confirms the output file exists; when the
collaborator wrote nothing and the file is absent, the job fails through
the distinct persistence branch (lines 82-84), and more generally a
client is only ever returned when the output file exists. -/
theorem c9_persist_double_check (env : Env) (cwd : String) (fs : FS) (d : String)
    (td : TDesk) (cl : Client) (me : Me)
    (hd : ¬ d.data.head? = some '-')
    (ht : pathExistsFS fs (tdataPathOf d) = true)
    (hs : pathExistsFS fs (sessionPathOf cwd d) = false)
    (hload : env.standardLoad = .ok td) (hloaded : td.isLoaded = true)
    (htt : env.toTelethonResult = .ok cl) (hauth : cl.authorized = true)
    (hconn : env.connectResult = .ok ()) (hme : env.getMeResult = .ok me)
    (hw : env.toTelethonWrites = false) :
    (runMain env cwd fs [d]).outcome = .convertFailed .persistMissing ∧
    (∀ env2 fsx sf c fs2 ccs,
      convert_to_telethon_session env2 fsx sf = (.okClient c, fs2, ccs) →
      pathExistsFS fs2 sf = true) := by
  have hL : load_tdesktop_client env = ([.loadStandard], .ok (some td)) := by
    simp [load_tdesktop_client, hload, hloaded]
  have hW : convWrittenFS env (ensure_output_directory cwd fs).2 (sessionPathOf cwd d) =
      (ensure_output_directory cwd fs).2 := by
    simp [convWrittenFS, hw]
  have hpe : pathExistsFS
      (convWrittenFS env (ensure_output_directory cwd fs).2 (sessionPathOf cwd d))
      (sessionPathOf cwd d) = false := by
    rw [hW, pathExistsFS_ensure cwd fs _ (sessionPath_ne_outputPath cwd d cwd)]
    exact hs
  have hC : convert_to_telethon_session env (ensure_output_directory cwd fs).2
      (sessionPathOf cwd d) =
      (.persistMissing,
        convWrittenFS env (ensure_output_directory cwd fs).2 (sessionPathOf cwd d),
        [.toTelethonCall, .connectCall, .getMeCall]) := by
    simp [convert_to_telethon_session, htt, hconn, clientGetMe, hauth, hme, hpe]
  rw [runMain_single env cwd fs d hd, if_neg (by simp [ht]), if_neg (by simp [hs])]
  unfold mainLoadAndConvert
  rw [hL, hC]
  exact ⟨rfl, fun env2 fsx sf c fs2 ccs h => conv_okClient_exists h⟩

/-- C9 witness: the theorem applied to the no-write fixture. -/
theorem c9_witness :
    (runMain envNoWrite "/w" fsSingle ["acc"]).outcome = .convertFailed .persistMissing :=
  (c9_persist_double_check envNoWrite "/w" fsSingle "acc" ⟨true, 1⟩ ⟨true⟩ ⟨"Alice", 7⟩
    (by decide) (by decide) (by decide) rfl rfl rfl rfl rfl rfl rfl).1

/-- C10: the loader falls back to the legacy-format attempt when the
standard load reports zero accounts, reports a load failure only when
every attempt it made failed, never raises (it signals failure with an
empty result), and `main` turns the empty result into the job-level load
failure. -/
theorem c10_legacy_fallback (env : Env) (cwd : String) (fs : FS) (d : String)
    (hd : ¬ d.data.head? = some '-') :
    (∃ v, (load_tdesktop_client env).2 = .ok v) ∧
    (∀ td, env.standardLoad = .ok td → td.isLoaded = false →
      Call.loadLegacy ∈ (load_tdesktop_client env).1) ∧
    ((load_tdesktop_client env).2 = .ok none →
      (∀ td, env.standardLoad = .ok td → td.isLoaded = false) ∧
      (∀ td, env.legacyLoad = .ok td → Call.loadLegacy ∈ (load_tdesktop_client env).1 →
        td.isLoaded = false)) ∧
    (pathExistsFS fs (tdataPathOf d) = true →
      pathExistsFS fs (sessionPathOf cwd d) = false →
      (load_tdesktop_client env).2 = .ok none →
      (runMain env cwd fs [d]).outcome = .loadFailed) := by
  have last : pathExistsFS fs (tdataPathOf d) = true →
      pathExistsFS fs (sessionPathOf cwd d) = false →
      (load_tdesktop_client env).2 = .ok none →
      (runMain env cwd fs [d]).outcome = .loadFailed := by
    intro ht hs hnone
    rw [runMain_single env cwd fs d hd, if_neg (by simp [ht]), if_neg (by simp [hs])]
    unfold mainLoadAndConvert
    rcases hl : load_tdesktop_client env with ⟨lcs, r⟩
    rw [hl] at hnone
    rw [show ((lcs, r).2 : Except PyErr (Option TDesk)) = r from rfl] at hnone
    subst hnone
    rfl
  refine ⟨?_, ?_, ?_, last⟩ <;> clear last
  case _ =>
    rcases hse : env.standardLoad with e | td
    · rcases e with m | m
      · rcases hle : env.legacyLoad with e2 | tl
        · exact ⟨none, by simp [load_tdesktop_client, legacyAttempt, hse, hle]⟩
        · by_cases h2 : tl.isLoaded = true
          · exact ⟨some tl, by simp [load_tdesktop_client, legacyAttempt, hse, hle, h2]⟩
          · have h2' : tl.isLoaded = false := by revert h2; cases tl.isLoaded <;> simp
            exact ⟨none, by simp [load_tdesktop_client, legacyAttempt, hse, hle, h2']⟩
      · exact ⟨none, by simp [load_tdesktop_client, hse]⟩
    · by_cases hl1 : td.isLoaded = true
      · exact ⟨some td, by simp [load_tdesktop_client, hse, hl1]⟩
      · have h1' : td.isLoaded = false := by revert hl1; cases td.isLoaded <;> simp
        rcases hle : env.legacyLoad with e2 | tl
        · exact ⟨none, by simp [load_tdesktop_client, legacyAttempt, hse, h1', hle]⟩
        · by_cases h2 : tl.isLoaded = true
          · exact ⟨some tl, by simp [load_tdesktop_client, legacyAttempt, hse, h1', hle, h2]⟩
          · have h2' : tl.isLoaded = false := by revert h2; cases tl.isLoaded <;> simp
            exact ⟨none, by simp [load_tdesktop_client, legacyAttempt, hse, h1', hle, h2']⟩
  case _ =>
    intro td h hfalse
    rcases hle : env.legacyLoad with e2 | tl
    · simp [load_tdesktop_client, legacyAttempt, h, hfalse, hle]
    · by_cases h2 : tl.isLoaded = true <;>
        simp [load_tdesktop_client, legacyAttempt, h, hfalse, hle, h2]
  case _ =>
    intro hnone
    rcases hse : env.standardLoad with e | td
    · refine ⟨fun td h => Except.noConfusion h, ?_⟩
      rcases e with m | m
      · intro tl h hmem
        by_cases h2 : tl.isLoaded = true
        · simp [load_tdesktop_client, legacyAttempt, hse, h, h2] at hnone
        · revert h2; cases tl.isLoaded <;> simp
      · intro tl h hmem
        simp [load_tdesktop_client, hse] at hmem
    · by_cases hl1 : td.isLoaded = true
      · simp [load_tdesktop_client, hse, hl1] at hnone
      · have h1' : td.isLoaded = false := by revert hl1; cases td.isLoaded <;> simp
        constructor
        · intro td2 h
          injection h with h
          subst h
          exact h1'
        · intro tl h hmem
          by_cases h2 : tl.isLoaded = true
          · simp [load_tdesktop_client, legacyAttempt, hse, h1', h, h2] at hnone
          · revert h2; cases tl.isLoaded <;> simp

/-- C10 witness: the theorem applied to the zero-accounts fixture: the
legacy attempt is made, and the run reports a load failure. -/
theorem c10_witness :
    Call.loadLegacy ∈ (load_tdesktop_client envLoadZero).1 ∧
    (runMain envLoadZero "/w" fsSingle ["acc"]).outcome = .loadFailed :=
  ⟨(c10_legacy_fallback envLoadZero "/w" fsSingle "acc" (by decide)).2.1 ⟨false, 0⟩ rfl rfl,
   (c10_legacy_fallback envLoadZero "/w" fsSingle "acc" (by decide)).2.2.2
     (by decide) (by decide) (by decide)⟩

end Tdata2Session
